import Mathlib

/-!
Shallow embedding of the report-generation pipeline of app.py
(analyze_data, create_visualizations, generate_pdf_report) and proofs
of the specification claims about it.

Modelling notes:
  - A pandas DataFrame is a row count plus an ordered list of named,
    dtyped columns.  pandas infers one dtype per column; besides the
    numeric dtypes and the object (text) dtype, columns read from
    CSV/Excel can also carry other dtypes (bool for True/False CSV
    columns, datetime64 for Excel date cells), so the dtype universe
    has more than two points.
  - A cell is either a concrete scalar, carried by its textual form
    (the only per-cell view the report code uses, via Python str), or
    missing (NaN); Python renders a missing float cell as "nan".
  - Library rendering internals (plotly pixel output, pandas describe
    numerics, ReportLab layout) are below the abstraction floor: a
    Chart keeps its title, a statistics block keeps the column it is
    computed from.  No claim refers to the numeric contents of either.
  - The wall-clock timestamp read inside generate_pdf_report is passed
    as an explicit argument.
  - Two runtime failures are reachable in the pipeline, both Python
    ValueErrors, modelled in Except: plotly express rejects same-call
    arguments of different lengths (px.bar with x = df.index[:10] and
    a full-length y column, whenever the table has more than 10 rows),
    and ReportLab Table construction rejects data with no row or no
    column (the preview table, whenever the dataframe has zero
    columns).  The column-width comprehension at line 189 iterates
    over df.columns, so with zero columns it yields [] without ever
    dividing: no ZeroDivisionError exists on any path.
-/

/-- Column dtype as inferred by pandas. -/
inductive DType where
  | numeric
  | object
  | boolean
  | datetime
deriving DecidableEq, Repr

/-- A cell: a scalar carried by its textual form, or missing (NaN). -/
inductive Cell where
  | scalar (text : String)
  | missing
deriving DecidableEq, Repr

/-- Python str() of a cell; str(nan) = "nan". -/
def cellStr : Cell → String
  | .scalar s => s
  | .missing => "nan"

/-- df.isnull() for one cell. -/
def isNullCell : Cell → Bool
  | .scalar _ => false
  | .missing => true

/-- One named dataframe column. -/
structure Column where
  name : String
  dtype : DType
  cells : List Cell
deriving DecidableEq, Repr

/-- An in-memory pandas DataFrame: len(df) and the ordered columns. -/
structure DataFrame where
  nRows : Nat
  cols : List Column
deriving DecidableEq, Repr

/-- df.columns.tolist(). -/
def colNames (df : DataFrame) : List String :=
  df.cols.map (fun c => c.name)

/-- df.select_dtypes(include=[np.number]).columns. -/
def numericCols (df : DataFrame) : List Column :=
  df.cols.filter (fun c => c.dtype = DType.numeric)

/-- The result dict of analyze_data. -/
structure Analysis where
  total_rows : Nat
  total_columns : Nat
  numeric_columns : List String
  categorical_columns : List String
  missing_values : List (String × Nat)
  summary_stats : List (String × Column)
deriving DecidableEq, Repr

/-- analyze_data (app.py lines 59-69): profile of a dataframe.
numeric_columns are the dtype-number columns, categorical_columns the
dtype-object columns, missing_values counts null cells per column, and
summary_stats is df.describe().to_dict() - keyed by the numeric column
names - when at least one numeric column exists, else the empty dict.
The pandas-computed statistic values are not modelled (no claim reads
them); each entry keeps the column describe() is computed from. -/
def analyze_data (df : DataFrame) : Analysis :=
  { total_rows := df.nRows
    total_columns := df.cols.length
    numeric_columns := (numericCols df).map (fun c => c.name)
    categorical_columns :=
      (df.cols.filter (fun c => c.dtype = DType.object)).map (fun c => c.name)
    missing_values :=
      df.cols.map (fun c => (c.name, c.cells.countP isNullCell))
    summary_stats :=
      if (numericCols df).length > 0 then
        (numericCols df).map (fun c => (c.name, c))
      else [] }

/-- A rendered chart, abstracted to its kind and title (the plotly
pixel buffer is not modelled). -/
inductive Chart where
  | bar (title : String)
  | line (title : String)
deriving DecidableEq, Repr

/-- The ValueError failures of the pipeline reachable in the source:
plotly express rejecting same-call arguments of different lengths, and
ReportLab rejecting a table whose data has no row or no column. -/
inductive PyError where
  | valueErrorLengthMismatch
  | valueErrorEmptyTable
deriving DecidableEq, Repr

/-- create_visualizations (app.py lines 71-91): a bar chart of the
first numeric column when one exists, plus a line chart of the second
numeric column when at least two exist.  px.bar at line 77 is handed
x = df.index[:10], of length min(10, len(df)), and y = the first
numeric column, of length len(df); plotly express raises ValueError
when argument lengths differ, so the bar chart raises whenever the
table has more than 10 rows, and nothing later in the function runs.
px.line at line 85 slices both the frame and the index to 20 rows, so
its two lengths always agree.  The rendered pixels are below the
abstraction floor, and the y-column lookup is not modelled: the sole
call site (app.py line 298) passes names of df's own columns. -/
def create_visualizations (df : DataFrame) (numeric_cols : List String) :
    Except PyError (List Chart) :=
  match numeric_cols with
  | [] => Except.ok []
  | c0 :: rest =>
    if min 10 df.nRows ≠ df.nRows then
      Except.error PyError.valueErrorLengthMismatch
    else
      match rest with
      | [] => Except.ok [Chart.bar (c0 ++ " - Top 10 Records")]
      | c1 :: _ =>
          Except.ok [Chart.bar (c0 ++ " - Top 10 Records"),
                     Chart.line (c1 ++ " - Trend Analysis")]

/-- A ReportLab flowable element, at the granularity the claims need. -/
inductive Element where
  | para (text : String) (style : String)
  | spacer (w h : ℚ)
  | table (data : List (List String)) (colWidths : List ℚ)
  | statsTable (colName : String) (source : Column)
  | pageBreak
  | image (chart : Chart) (w h : ℚ)
deriving DecidableEq, Repr

/-- letter page width in points (8.5in x 72). -/
def letterWidth : ℚ := 612

/-- SimpleDocTemplate leftMargin (app.py line 97). -/
def leftMargin : ℚ := 72

/-- SimpleDocTemplate rightMargin (app.py line 97). -/
def rightMargin : ℚ := 72

/-- Cell text truncation (app.py line 186): textual forms longer than
20 characters become the first 20 characters plus an ellipsis. -/
def truncCell (s : String) : String :=
  if 20 < s.length then s.take 20 ++ "..." else s

/-- df.head(10).values.tolist(): the first min(10, len(df)) rows, each
row the cells across the columns in order. -/
def previewRows (df : DataFrame) : List (List Cell) :=
  (List.range (min 10 df.nRows)).map
    (fun i => df.cols.map (fun c => c.cells.getD i Cell.missing))

/-- preview_data after truncation (app.py lines 183-187): header row of
column names, then the first 10 data rows via str(), every entry
truncated.  str() is the identity on the header strings. -/
def previewMatrix (df : DataFrame) : List (List String) :=
  ((colNames df) ::
    (previewRows df).map (fun r => r.map cellStr)).map
      (fun r => r.map truncCell)

/-- col_widths (app.py line 189): letter[0] / len(df.columns) - 20,
computed once per element of df.columns.  The comprehension body holds
the division, so with zero columns the body never runs and the result
is [] — no division (and no ZeroDivisionError) occurs. -/
def colWidths (df : DataFrame) : List ℚ :=
  df.cols.map (fun _ => letterWidth / (df.cols.length : ℚ) - 20)

/-- ", ".join(l) if l else "None" (app.py lines 152, 155). -/
def joinOrNone (l : List String) : String :=
  if l.isEmpty then "None" else String.intercalate ", " l

/-- Title block (app.py lines 122-126). -/
def titleElems (now : String) : List Element :=
  [Element.para "Automated Data Analysis Report" "CustomTitle",
   Element.para ("Generated on: " ++ now) "Normal",
   Element.spacer 1 20]

/-- summary_data (app.py lines 130-135). -/
def summaryData (a : Analysis) : List (List String) :=
  [["Total Records", toString a.total_rows],
   ["Total Columns", toString a.total_columns],
   ["Numeric Columns", toString a.numeric_columns.length],
   ["Categorical Columns", toString a.categorical_columns.length]]

/-- Column information block (app.py lines 150-157). -/
def columnInfoElems (a : Analysis) : List Element :=
  [Element.para "Column Information" "CustomHeading",
   Element.para ("<b>Numeric Columns:</b> " ++ joinOrNone a.numeric_columns)
     "Normal",
   Element.spacer 1 10,
   Element.para
     ("<b>Categorical Columns:</b> " ++ joinOrNone a.categorical_columns)
     "Normal",
   Element.spacer 1 20]

/-- Statistical summary block (app.py lines 159-178): emitted only when
the summary_stats dict is truthy (non-empty); first 3 numeric columns. -/
def statsElems (a : Analysis) : List Element :=
  if a.summary_stats.isEmpty then []
  else
    Element.para "Statistical Summary" "CustomHeading" ::
      ((a.summary_stats.take 3).map (fun p =>
        [Element.para ("<b>" ++ p.1 ++ "</b>") "Heading3",
         Element.statsTable p.1 p.2,
         Element.spacer 1 12])).flatten

/-- ReportLab Table(data, colWidths) construction, with
emptyTableAction left at its default 'error': data with no row or no
column raises ValueError("... must have at least a row and column").
Every data matrix this program passes has rows of one common length,
so the column count is the first row's length. -/
def mkTable (data : List (List String)) (widths : List ℚ) :
    Except PyError Element :=
  if data.length = 0 ∨ (data.headD []).length = 0 then
    Except.error PyError.valueErrorEmptyTable
  else Except.ok (Element.table data widths)

/-- Visualization block (app.py lines 206-214): emitted only when the
chart list is truthy; 6*inch = 432, 3*inch = 216. -/
def chartElems (charts : List Chart) : List Element :=
  if charts.isEmpty then []
  else
    Element.pageBreak ::
      Element.para "Data Visualizations" "CustomHeading" ::
        (charts.map (fun ch =>
          [Element.image ch 432 216, Element.spacer 1 20])).flatten

/-- generate_pdf_report (app.py lines 93-219).  The current wall-clock
time is the explicit argument now.  The summary Table (line 136) and
the preview Table (line 190) go through the ReportLab construction
check; the summary data is the fixed 4x2 matrix, so only the preview
Table can fail, and it fails exactly when the dataframe has zero
columns (its header row is then empty).  The per-column statistics
Tables (line 166) take describe() output, which always carries its 8
statistic rows, so they cannot trip the check and stay abstracted as
statsTable blocks. -/
def generate_pdf_report (now : String) (df : DataFrame) (analysis : Analysis)
    (charts : List Chart) : Except PyError (List Element) :=
  match mkTable (summaryData analysis) [216, 216] with
  | Except.error e => Except.error e
  | Except.ok st =>
    match mkTable (previewMatrix df) (colWidths df) with
    | Except.error e => Except.error e
    | Except.ok pt =>
      Except.ok (titleElems now ++
        [Element.para "Executive Summary" "CustomHeading", st,
         Element.spacer 1 20] ++
        columnInfoElems analysis ++ statsElems analysis ++
        [Element.pageBreak,
         Element.para "Data Preview (First 10 Rows)" "CustomHeading", pt] ++
        chartElems charts)

/-- The report-generation path of the upload handler (app.py lines
232-312): parse result df, analyze_data, create_visualizations on the
numeric columns, then generate_pdf_report; an exception in either
stage propagates and no document is produced.  The handler performs no
emptiness check on df and defines no EmptyDatasetError. -/
def runPipeline (now : String) (df : DataFrame) :
    Except PyError (List Element) :=
  let analysis := analyze_data df
  match create_visualizations df analysis.numeric_columns with
  | Except.error e => Except.error e
  | Except.ok charts => generate_pdf_report now df analysis charts

/-- Did the pipeline produce a document? -/
def pipelineOk (r : Except PyError (List Element)) : Bool :=
  match r with
  | Except.ok _ => true
  | Except.error _ => false

/-- State-passing form of analyze_data: its statements (len,
select_dtypes, isnull, describe) only read df and build fresh objects,
so the argument's final state is the initial one. -/
def analyzeDataSt (df : DataFrame) : Analysis × DataFrame :=
  (analyze_data df, df)

/-- State-passing form of create_visualizations: px.bar, the df[:20]
slice and px.line read df without writing to it. -/
def createVisualizationsSt (df : DataFrame) (numeric_cols : List String) :
    Except PyError (List Chart) × DataFrame :=
  (create_visualizations df numeric_cols, df)

/-- State-passing form of generate_pdf_report: it reads df, the
analysis dict and the chart list, writing only to its own buffer and
element list. -/
def generatePdfSt (now : String) (df : DataFrame) (analysis : Analysis)
    (charts : List Chart) :
    Except PyError (List Element) × DataFrame × Analysis × List Chart :=
  (generate_pdf_report now df analysis charts, df, analysis, charts)

/-! ## Helper lemmas (shared, not claim theorems) -/

lemma numericCols_eq_nil_of_names (df : DataFrame)
    (h : (analyze_data df).numeric_columns = []) : numericCols df = [] := by
  simp only [analyze_data] at h
  exact List.map_eq_nil_iff.mp h

lemma statsEmptyOfNoNumeric (df : DataFrame)
    (h : (analyze_data df).numeric_columns = []) :
    (analyze_data df).summary_stats = [] := by
  have h0 : numericCols df = [] := numericCols_eq_nil_of_names df h
  simp [analyze_data, h0]

lemma mkTable_summary_ok (a : Analysis) :
    mkTable (summaryData a) [216, 216] =
      Except.ok (Element.table (summaryData a) [216, 216]) := by
  simp [mkTable, summaryData]

lemma mkTable_preview (df : DataFrame) :
    mkTable (previewMatrix df) (colWidths df) =
      if df.cols.length = 0 then Except.error PyError.valueErrorEmptyTable
      else Except.ok (Element.table (previewMatrix df) (colWidths df)) := by
  have h1 : (previewMatrix df).length ≠ 0 := by simp [previewMatrix]
  have h2 : ((previewMatrix df).headD []).length = df.cols.length := by
    simp [previewMatrix, colNames]
  by_cases hc : df.cols.length = 0
  · rw [if_pos hc]
    unfold mkTable
    rw [if_pos (Or.inr (h2.trans hc))]
  · rw [if_neg hc]
    unfold mkTable
    rw [if_neg (by push_neg; exact ⟨h1, by rw [h2]; exact hc⟩)]

lemma generate_pdf_ok (now : String) (df : DataFrame) (a : Analysis)
    (charts : List Chart) (h : df.cols.length ≠ 0) :
    generate_pdf_report now df a charts =
      Except.ok (titleElems now ++
        [Element.para "Executive Summary" "CustomHeading",
         Element.table (summaryData a) [216, 216],
         Element.spacer 1 20] ++
        columnInfoElems a ++ statsElems a ++
        [Element.pageBreak,
         Element.para "Data Preview (First 10 Rows)" "CustomHeading",
         Element.table (previewMatrix df) (colWidths df)] ++
        chartElems charts) := by
  simp [generate_pdf_report, mkTable_summary_ok, mkTable_preview, h]

lemma generate_pdf_err (now : String) (df : DataFrame) (a : Analysis)
    (charts : List Chart) (h : df.cols.length = 0) :
    generate_pdf_report now df a charts =
      Except.error PyError.valueErrorEmptyTable := by
  simp [generate_pdf_report, mkTable_summary_ok, mkTable_preview, h]

/-! ## Claim theorems -/

/-- C3 counterexample: on a table with 11 rows and exactly one numeric
column, create_visualizations raises plotly's length-mismatch
ValueError (x = df.index[:10] has 10 entries, the y column has 11)
instead of returning exactly one chart. -/
theorem create_visualizations_raises_beyond_10_rows :
    create_visualizations
        ⟨11, [⟨"a", DType.numeric, List.replicate 11 (Cell.scalar "1")⟩]⟩ ["a"]
      = Except.error PyError.valueErrorLengthMismatch := by
  rfl

/-- C3 amended: for numeric-column names drawn from the table, the
renderer returns min(count, 2) charts - zero, one, or two - whenever
the table has at most 10 rows; with more than 10 rows and at least one
numeric column it instead raises plotly's length-mismatch ValueError
from the px.bar call. -/
theorem create_visualizations_chart_count (df : DataFrame)
    (numeric_cols : List String)
    (hin : ∀ n ∈ numeric_cols, n ∈ colNames df) :
    (df.nRows ≤ 10 →
      ∃ charts, create_visualizations df numeric_cols = Except.ok charts ∧
        charts.length = min numeric_cols.length 2) ∧
    (10 < df.nRows → numeric_cols ≠ [] →
      create_visualizations df numeric_cols =
        Except.error PyError.valueErrorLengthMismatch) := by
  constructor
  · intro hle
    have hmin : min 10 df.nRows = df.nRows := min_eq_right hle
    cases numeric_cols with
    | nil => exact ⟨[], rfl, rfl⟩
    | cons c0 rest =>
      cases rest with
      | nil =>
        refine ⟨[Chart.bar (c0 ++ " - Top 10 Records")], ?_, rfl⟩
        simp [create_visualizations, hmin]
      | cons c1 tl =>
        refine ⟨[Chart.bar (c0 ++ " - Top 10 Records"),
                 Chart.line (c1 ++ " - Trend Analysis")], ?_, ?_⟩
        · simp [create_visualizations, hmin]
        · simp [Nat.min_def]
  · intro hgt hne
    cases numeric_cols with
    | nil => exact absurd rfl hne
    | cons c0 rest =>
      have hmin : min 10 df.nRows ≠ df.nRows := by
        rw [min_eq_left (Nat.le_of_lt hgt)]
        omega
      cases rest with
      | nil => simp [create_visualizations, hmin]
      | cons c1 tl => simp [create_visualizations, hmin]

/-- Witness for C3 amended: a 2-row table exercising the chart-count
branch and an 11-row table exercising the ValueError branch. -/
theorem create_visualizations_chart_count_witness :
    ((∀ n ∈ (["a"] : List String),
        n ∈ colNames ⟨2, [⟨"a", DType.numeric,
          [Cell.scalar "1", Cell.scalar "2"]⟩]⟩) ∧
     (⟨2, [⟨"a", DType.numeric,
        [Cell.scalar "1", Cell.scalar "2"]⟩]⟩ : DataFrame).nRows ≤ 10 ∧
     (∃ charts,
        create_visualizations
            ⟨2, [⟨"a", DType.numeric, [Cell.scalar "1", Cell.scalar "2"]⟩]⟩
            ["a"] = Except.ok charts ∧
        charts.length = min (["a"] : List String).length 2)) ∧
    ((∀ n ∈ (["b"] : List String),
        n ∈ colNames ⟨11, [⟨"b", DType.numeric,
          List.replicate 11 (Cell.scalar "1")⟩]⟩) ∧
     10 < (⟨11, [⟨"b", DType.numeric,
        List.replicate 11 (Cell.scalar "1")⟩]⟩ : DataFrame).nRows ∧
     (["b"] : List String) ≠ [] ∧
     create_visualizations
         ⟨11, [⟨"b", DType.numeric, List.replicate 11 (Cell.scalar "1")⟩]⟩
         ["b"] = Except.error PyError.valueErrorLengthMismatch) :=
  ⟨⟨by decide, by decide,
    (create_visualizations_chart_count
      ⟨2, [⟨"a", DType.numeric, [Cell.scalar "1", Cell.scalar "2"]⟩]⟩
      ["a"] (by decide)).1 (by decide)⟩,
   ⟨by decide, by decide, by decide,
    (create_visualizations_chart_count
      ⟨11, [⟨"b", DType.numeric, List.replicate 11 (Cell.scalar "1")⟩]⟩
      ["b"] (by decide)).2 (by decide) (by decide)⟩⟩

/-- C7: for every column of the dataframe, the missing_values mapping
of analyze_data has an entry carrying that column's name and its count
of null cells. -/
theorem missing_values_entry (df : DataFrame) (c : Column)
    (h : c ∈ df.cols) :
    (c.name, c.cells.countP isNullCell) ∈ (analyze_data df).missing_values := by
  simp only [analyze_data]
  exact List.mem_map.mpr ⟨c, h, rfl⟩

/-- Witness for C7 at a one-column dataframe with two missing cells. -/
theorem missing_values_entry_witness :
    (⟨"a", DType.numeric, [Cell.scalar "1", Cell.missing, Cell.missing]⟩ : Column)
        ∈ (⟨3, [⟨"a", DType.numeric,
            [Cell.scalar "1", Cell.missing, Cell.missing]⟩]⟩ : DataFrame).cols ∧
    ("a", 2) ∈ (analyze_data ⟨3, [⟨"a", DType.numeric,
        [Cell.scalar "1", Cell.missing, Cell.missing]⟩]⟩).missing_values :=
  ⟨by decide,
   missing_values_entry
     ⟨3, [⟨"a", DType.numeric, [Cell.scalar "1", Cell.missing, Cell.missing]⟩]⟩
     ⟨"a", DType.numeric, [Cell.scalar "1", Cell.missing, Cell.missing]⟩
     (by decide)⟩

/-- C8: when the profile reports zero numeric columns, analyze_data
returns an empty statistics mapping (and, being a total function of the
dataframe, does not fail). -/
theorem summary_stats_empty_when_no_numeric (df : DataFrame)
    (h : (analyze_data df).numeric_columns = []) :
    (analyze_data df).summary_stats = [] :=
  statsEmptyOfNoNumeric df h

/-- Witness for C8 at a dataframe with one text column. -/
theorem summary_stats_empty_when_no_numeric_witness :
    (analyze_data ⟨1, [⟨"p", DType.object, [Cell.scalar "x"]⟩]⟩).numeric_columns
        = [] ∧
    (analyze_data ⟨1, [⟨"p", DType.object, [Cell.scalar "x"]⟩]⟩).summary_stats
        = [] :=
  ⟨by decide, summary_stats_empty_when_no_numeric _ (by decide)⟩

/-- C9: no pipeline stage mutates its input: the state-passing forms of
analyze_data, create_visualizations and generate_pdf_report return the
dataframe (and, for the composer, the analysis and chart list) exactly
as received. -/
theorem pipeline_stages_no_mutation (now : String) (df : DataFrame)
    (numeric_cols : List String) (a : Analysis) (charts : List Chart) :
    (analyzeDataSt df).2 = df ∧
    (createVisualizationsSt df numeric_cols).2 = df ∧
    (generatePdfSt now df a charts).2 = (df, a, charts) :=
  ⟨rfl, rfl, rfl⟩

/-- C10 counterexample: at the zero-column dataframe, the column-width
computation completes with the empty list - the comprehension body,
which holds the only division, never runs, so no division-by-zero
occurs - and the composer's failure is ReportLab's empty-table
ValueError from the preview Table construction. -/
theorem zero_columns_no_division :
    colWidths ⟨0, []⟩ = [] ∧
    generate_pdf_report "t" ⟨0, []⟩ (analyze_data ⟨0, []⟩) []
      = Except.error PyError.valueErrorEmptyTable := by
  constructor
  · rfl
  · rfl

/-- C10 amended: on a dataframe with zero columns, generate_pdf_report
does fail rather than produce a document, whatever the analysis and
chart list - but the column-width comprehension yields [] without
dividing, and the failure is ReportLab's ValueError for a table with
no column, raised by the preview Table construction at line 190. -/
theorem generate_pdf_zero_columns_empty_table (now : String)
    (df : DataFrame) (a : Analysis) (charts : List Chart)
    (h : df.cols.length = 0) :
    colWidths df = [] ∧
    generate_pdf_report now df a charts =
      Except.error PyError.valueErrorEmptyTable := by
  have hc : df.cols = [] := List.length_eq_zero.mp h
  exact ⟨by simp [colWidths, hc], generate_pdf_err now df a charts h⟩

/-- Witness for C10 amended at the empty dataframe. -/
theorem generate_pdf_zero_columns_empty_table_witness :
    (⟨0, []⟩ : DataFrame).cols.length = 0 ∧
    (colWidths ⟨0, []⟩ = [] ∧
     generate_pdf_report "t" ⟨0, []⟩ (analyze_data ⟨0, []⟩) []
       = Except.error PyError.valueErrorEmptyTable) :=
  ⟨rfl, generate_pdf_zero_columns_empty_table "t" ⟨0, []⟩
    (analyze_data ⟨0, []⟩) [] rfl⟩

/-- C1 counterexample: a one-column dataframe whose column has the
boolean dtype (as pandas infers for a True/False CSV column).  The
column's name lands in neither the numeric nor the categorical list, so
the union of the two sets is not the full column-name set. -/
theorem numeric_categorical_not_exhaustive :
    "flag" ∈ colNames ⟨2, [⟨"flag", DType.boolean,
        [Cell.scalar "True", Cell.scalar "False"]⟩]⟩ ∧
    "flag" ∉ (analyze_data ⟨2, [⟨"flag", DType.boolean,
        [Cell.scalar "True", Cell.scalar "False"]⟩]⟩).numeric_columns ∧
    "flag" ∉ (analyze_data ⟨2, [⟨"flag", DType.boolean,
        [Cell.scalar "True", Cell.scalar "False"]⟩]⟩).categorical_columns := by
  decide

/-- C1 amended: the numeric and categorical column lists of
analyze_data are always disjoint (given the Table invariant of unique
column names), and their union is the full column-name set provided
every column dtype is numeric or object; a column of any other pandas
dtype (boolean, datetime) belongs to neither list. -/
theorem numeric_categorical_partition (df : DataFrame)
    (hnodup : (colNames df).Nodup) :
    (∀ n, n ∈ (analyze_data df).numeric_columns →
        n ∉ (analyze_data df).categorical_columns) ∧
    ((∀ c ∈ df.cols, c.dtype = DType.numeric ∨ c.dtype = DType.object) →
      ∀ n, n ∈ colNames df ↔
        (n ∈ (analyze_data df).numeric_columns ∨
         n ∈ (analyze_data df).categorical_columns)) := by
  constructor
  · intro n hnum hcat
    simp only [analyze_data, numericCols, List.mem_map, List.mem_filter,
      decide_eq_true_eq] at hnum hcat
    obtain ⟨c1, ⟨hc1, hd1⟩, hn1⟩ := hnum
    obtain ⟨c2, ⟨hc2, hd2⟩, hn2⟩ := hcat
    have hnodup2 : (df.cols.map (fun c => c.name)).Nodup := hnodup
    have hinj := List.inj_on_of_nodup_map hnodup2
    have : c1 = c2 := hinj hc1 hc2 (hn1.trans hn2.symm)
    rw [this, hd2] at hd1
    exact DType.noConfusion hd1
  · intro hdt n
    constructor
    · intro hn
      simp only [colNames, List.mem_map] at hn
      obtain ⟨c, hc, hcn⟩ := hn
      rcases hdt c hc with hnum | hobj
      · exact Or.inl (by
          simp only [analyze_data, numericCols, List.mem_map, List.mem_filter,
            decide_eq_true_eq]
          exact ⟨c, ⟨hc, hnum⟩, hcn⟩)
      · exact Or.inr (by
          simp only [analyze_data, List.mem_map, List.mem_filter,
            decide_eq_true_eq]
          exact ⟨c, ⟨hc, hobj⟩, hcn⟩)
    · intro hn
      rcases hn with hn | hn <;>
        · simp only [analyze_data, numericCols, List.mem_map, List.mem_filter,
            decide_eq_true_eq] at hn
          obtain ⟨c, ⟨hc, _⟩, hcn⟩ := hn
          exact List.mem_map.mpr ⟨c, hc, hcn⟩

/-- Witness for C1 amended at a two-column numeric/object dataframe. -/
theorem numeric_categorical_partition_witness :
    (colNames ⟨1, [⟨"s", DType.numeric, [Cell.scalar "1"]⟩,
        ⟨"p", DType.object, [Cell.scalar "x"]⟩]⟩).Nodup ∧
    ((∀ n, n ∈ (analyze_data ⟨1, [⟨"s", DType.numeric, [Cell.scalar "1"]⟩,
          ⟨"p", DType.object, [Cell.scalar "x"]⟩]⟩).numeric_columns →
        n ∉ (analyze_data ⟨1, [⟨"s", DType.numeric, [Cell.scalar "1"]⟩,
          ⟨"p", DType.object, [Cell.scalar "x"]⟩]⟩).categorical_columns) ∧
    ((∀ c ∈ (⟨1, [⟨"s", DType.numeric, [Cell.scalar "1"]⟩,
          ⟨"p", DType.object, [Cell.scalar "x"]⟩]⟩ : DataFrame).cols,
        c.dtype = DType.numeric ∨ c.dtype = DType.object) →
      ∀ n, n ∈ colNames ⟨1, [⟨"s", DType.numeric, [Cell.scalar "1"]⟩,
          ⟨"p", DType.object, [Cell.scalar "x"]⟩]⟩ ↔
        (n ∈ (analyze_data ⟨1, [⟨"s", DType.numeric, [Cell.scalar "1"]⟩,
          ⟨"p", DType.object, [Cell.scalar "x"]⟩]⟩).numeric_columns ∨
         n ∈ (analyze_data ⟨1, [⟨"s", DType.numeric, [Cell.scalar "1"]⟩,
          ⟨"p", DType.object, [Cell.scalar "x"]⟩]⟩).categorical_columns))) :=
  ⟨by decide,
   numeric_categorical_partition
     ⟨1, [⟨"s", DType.numeric, [Cell.scalar "1"]⟩,
        ⟨"p", DType.object, [Cell.scalar "x"]⟩]⟩ (by decide)⟩

/-- C2 counterexample: on a parsed table with zero rows and one column,
the pipeline produces a document (no EmptyDatasetError is defined
anywhere in the code, and no emptiness check exists). -/
theorem zero_row_table_produces_document :
    pipelineOk (runPipeline "t" ⟨0, [⟨"a", DType.object, []⟩]⟩) = true := by
  decide

/-- C2 amended: the code performs no empty-dataset check and defines no
EmptyDatasetError.  On an empty parse result, the behavior splits: with
zero columns the pipeline fails, with ReportLab's empty-table
ValueError from the preview Table construction; with zero rows and at
least one column it proceeds to a document. -/
theorem empty_dataset_behavior (now : String) (df : DataFrame)
    (h : df.nRows = 0 ∨ df.cols = []) :
    (df.cols = [] →
      runPipeline now df = Except.error PyError.valueErrorEmptyTable) ∧
    (df.cols ≠ [] → pipelineOk (runPipeline now df) = true) := by
  constructor
  · intro hc
    have hnum : (analyze_data df).numeric_columns = [] := by
      simp [analyze_data, numericCols, hc]
    have hcv : create_visualizations df (analyze_data df).numeric_columns
        = Except.ok [] := by
      rw [hnum]
      rfl
    simp only [runPipeline, hcv]
    exact generate_pdf_err now df (analyze_data df) [] (by simp [hc])
  · intro hc
    have hr : df.nRows = 0 := h.resolve_right hc
    have hl : df.cols.length ≠ 0 := fun h0 => hc (List.length_eq_zero.mp h0)
    have hmin : min 10 df.nRows = df.nRows := by
      simp [hr]
    obtain ⟨charts, hch⟩ : ∃ charts,
        create_visualizations df (analyze_data df).numeric_columns
          = Except.ok charts := by
      cases hnc : (analyze_data df).numeric_columns with
      | nil => exact ⟨[], rfl⟩
      | cons c0 rest =>
        cases rest with
        | nil =>
          refine ⟨[Chart.bar (c0 ++ " - Top 10 Records")], ?_⟩
          simp [create_visualizations, hmin]
        | cons c1 tl =>
          refine ⟨[Chart.bar (c0 ++ " - Top 10 Records"),
                   Chart.line (c1 ++ " - Trend Analysis")], ?_⟩
          simp [create_visualizations, hmin]
    simp only [runPipeline, hch]
    simp [generate_pdf_ok now df (analyze_data df) charts hl, pipelineOk]

/-- Witness for C2 amended at the fully empty dataframe. -/
theorem empty_dataset_behavior_witness :
    ((⟨0, []⟩ : DataFrame).nRows = 0 ∨ (⟨0, []⟩ : DataFrame).cols = []) ∧
    (((⟨0, []⟩ : DataFrame).cols = [] →
        runPipeline "t" ⟨0, []⟩ = Except.error PyError.valueErrorEmptyTable) ∧
     ((⟨0, []⟩ : DataFrame).cols ≠ [] →
        pipelineOk (runPipeline "t" ⟨0, []⟩) = true)) :=
  ⟨Or.inr rfl, empty_dataset_behavior "t" ⟨0, []⟩ (Or.inr rfl)⟩

/-- C4 counterexample: with one column, the computed width is
612/1 - 20 = 592 points, not the printable width (612 - 72 - 72)/1 =
468: the widths do not sum to the printable width. -/
theorem preview_col_widths_not_printable :
    colWidths ⟨1, [⟨"a", DType.numeric, [Cell.scalar "1"]⟩]⟩ = [592] ∧
    (592 : ℚ) ≠ (letterWidth - leftMargin - rightMargin) / 1 := by
  constructor
  · show [letterWidth / ((1 : Nat) : ℚ) - 20] = [592]
    norm_num [letterWidth]
  · norm_num [letterWidth, leftMargin, rightMargin]

/-- C4 amended: the preview-table column widths are all equal, but each
equals pageWidth/C - 20 (pageWidth = 612, C = column count), so they
sum to pageWidth - 20*C rather than to the printable width. -/
theorem preview_col_widths_value (df : DataFrame) (h : df.cols ≠ []) :
    (∀ w ∈ colWidths df, w = letterWidth / (df.cols.length : ℚ) - 20) ∧
    (colWidths df).sum = letterWidth - 20 * (df.cols.length : ℚ) := by
  have hC : (df.cols.length : ℚ) ≠ 0 := by
    have h0 : df.cols.length ≠ 0 := fun h0 => h (List.length_eq_zero.mp h0)
    exact Nat.cast_ne_zero.mpr h0
  constructor
  · intro w hw
    simp only [colWidths, List.mem_map] at hw
    obtain ⟨c, _, hweq⟩ := hw
    exact hweq.symm
  · have hrep : colWidths df =
        List.replicate df.cols.length (letterWidth / (df.cols.length : ℚ) - 20) := by
      simp [colWidths]
    rw [hrep, List.sum_replicate, nsmul_eq_mul]
    field_simp
    ring

/-- Witness for C4 amended at a two-column dataframe: both widths are
612/2 - 20 = 286 and the sum is 612 - 40 = 572. -/
theorem preview_col_widths_value_witness :
    (⟨1, [⟨"a", DType.numeric, [Cell.scalar "1"]⟩,
        ⟨"b", DType.numeric, [Cell.scalar "2"]⟩]⟩ : DataFrame).cols ≠ [] ∧
    ((∀ w ∈ colWidths ⟨1, [⟨"a", DType.numeric, [Cell.scalar "1"]⟩,
          ⟨"b", DType.numeric, [Cell.scalar "2"]⟩]⟩,
        w = letterWidth /
          (((⟨1, [⟨"a", DType.numeric, [Cell.scalar "1"]⟩,
              ⟨"b", DType.numeric, [Cell.scalar "2"]⟩]⟩ : DataFrame).cols.length : ℚ))
          - 20) ∧
     (colWidths ⟨1, [⟨"a", DType.numeric, [Cell.scalar "1"]⟩,
          ⟨"b", DType.numeric, [Cell.scalar "2"]⟩]⟩).sum =
        letterWidth - 20 *
          (((⟨1, [⟨"a", DType.numeric, [Cell.scalar "1"]⟩,
              ⟨"b", DType.numeric, [Cell.scalar "2"]⟩]⟩ : DataFrame).cols.length : ℚ))) :=
  ⟨by decide,
   preview_col_widths_value
     ⟨1, [⟨"a", DType.numeric, [Cell.scalar "1"]⟩,
        ⟨"b", DType.numeric, [Cell.scalar "2"]⟩]⟩ (by decide)⟩

/-- C5: on a non-empty table whose profile reports zero numeric
columns, with an empty chart list, the composer succeeds and the
document renders "None" for the numeric-column list, contains no
per-column statistics block and no chart block. -/
theorem composer_ok_when_no_numeric (now : String) (df : DataFrame)
    (hrows : 1 ≤ df.nRows) (hcols : df.cols ≠ [])
    (hnum : (analyze_data df).numeric_columns = []) :
    ∃ elems,
      generate_pdf_report now df (analyze_data df) [] = Except.ok elems ∧
      Element.para "<b>Numeric Columns:</b> None" "Normal" ∈ elems ∧
      (∀ n c, Element.statsTable n c ∉ elems) ∧
      Element.para "Statistical Summary" "CustomHeading" ∉ elems ∧
      (∀ ch w h, Element.image ch w h ∉ elems) ∧
      Element.para "Data Visualizations" "CustomHeading" ∉ elems := by
  have hstats : (analyze_data df).summary_stats = [] :=
    statsEmptyOfNoNumeric df hnum
  have hl : df.cols.length ≠ 0 := fun h0 => hcols (List.length_eq_zero.mp h0)
  have hjoin : ("<b>Numeric Columns:</b> " ++
      joinOrNone (analyze_data df).numeric_columns) =
      "<b>Numeric Columns:</b> None" := by
    rw [hnum]
    decide
  refine ⟨_, generate_pdf_ok now df (analyze_data df) [] hl,
    ?_, ?_, ?_, ?_, ?_⟩
  · simp [titleElems, columnInfoElems, statsElems, chartElems, hstats, hjoin]
  · intro n c
    simp [titleElems, columnInfoElems, statsElems, chartElems, hstats]
  · simp [titleElems, columnInfoElems, statsElems, chartElems, hstats]
  · intro ch w hgt
    simp [titleElems, columnInfoElems, statsElems, chartElems, hstats]
  · simp [titleElems, columnInfoElems, statsElems, chartElems, hstats]

/-- Witness for C5 at a one-row, one-text-column table. -/
theorem composer_ok_when_no_numeric_witness :
    (1 ≤ (⟨1, [⟨"p", DType.object, [Cell.scalar "x"]⟩]⟩ : DataFrame).nRows ∧
     (⟨1, [⟨"p", DType.object, [Cell.scalar "x"]⟩]⟩ : DataFrame).cols ≠ [] ∧
     (analyze_data ⟨1, [⟨"p", DType.object,
        [Cell.scalar "x"]⟩]⟩).numeric_columns = []) ∧
    (∃ elems,
      generate_pdf_report "t" ⟨1, [⟨"p", DType.object, [Cell.scalar "x"]⟩]⟩
          (analyze_data ⟨1, [⟨"p", DType.object, [Cell.scalar "x"]⟩]⟩) []
        = Except.ok elems ∧
      Element.para "<b>Numeric Columns:</b> None" "Normal" ∈ elems ∧
      (∀ n c, Element.statsTable n c ∉ elems) ∧
      Element.para "Statistical Summary" "CustomHeading" ∉ elems ∧
      (∀ ch w h, Element.image ch w h ∉ elems) ∧
      Element.para "Data Visualizations" "CustomHeading" ∉ elems) :=
  ⟨⟨by decide, by decide, by decide⟩,
   composer_ok_when_no_numeric "t" ⟨1, [⟨"p", DType.object, [Cell.scalar "x"]⟩]⟩
     (by decide) (by decide) (by decide)⟩

/-- C6: whenever the composer succeeds, the document carries the data
preview table; its header row is the column names, its body the first
min(10, row count) data rows in textual form, and every entry longer
than 20 characters is cut to its first 20 characters plus "...", while
entries of at most 20 characters pass through unchanged. -/
theorem preview_section_content (now : String) (df : DataFrame)
    (a : Analysis) (charts : List Chart) (h : df.cols ≠ []) :
    ∃ elems,
      generate_pdf_report now df a charts = Except.ok elems ∧
      Element.table (previewMatrix df) (colWidths df) ∈ elems ∧
      (previewMatrix df).head? =
        some ((df.cols.map (fun c => c.name)).map truncCell) ∧
      (previewMatrix df).tail =
        (previewRows df).map (fun r => r.map (fun c => truncCell (cellStr c))) ∧
      (previewRows df).length = min 10 df.nRows ∧
      (∀ s, 20 < s.length → truncCell s = s.take 20 ++ "...") ∧
      (∀ s, s.length ≤ 20 → truncCell s = s) := by
  have hl : df.cols.length ≠ 0 := fun h0 => h (List.length_eq_zero.mp h0)
  refine ⟨_, generate_pdf_ok now df a charts hl, ?_, rfl, ?_, ?_, ?_, ?_⟩
  · simp
  · simp [previewMatrix, List.map_map, Function.comp]
  · simp [previewRows]
  · intro s hs
    rw [truncCell, if_pos hs]
  · intro s hs
    rw [truncCell, if_neg (by omega)]

/-- Witness for C6 at a one-column table holding one long cell. -/
theorem preview_section_content_witness :
    (⟨1, [⟨"a", DType.object,
        [Cell.scalar "abcdefghijklmnopqrstuvwxyz"]⟩]⟩ : DataFrame).cols ≠ [] ∧
    (∃ elems,
      generate_pdf_report "t"
          ⟨1, [⟨"a", DType.object, [Cell.scalar "abcdefghijklmnopqrstuvwxyz"]⟩]⟩
          (analyze_data ⟨1, [⟨"a", DType.object,
            [Cell.scalar "abcdefghijklmnopqrstuvwxyz"]⟩]⟩) []
        = Except.ok elems ∧
      Element.table
          (previewMatrix ⟨1, [⟨"a", DType.object,
            [Cell.scalar "abcdefghijklmnopqrstuvwxyz"]⟩]⟩)
          (colWidths ⟨1, [⟨"a", DType.object,
            [Cell.scalar "abcdefghijklmnopqrstuvwxyz"]⟩]⟩) ∈ elems ∧
      (previewMatrix ⟨1, [⟨"a", DType.object,
          [Cell.scalar "abcdefghijklmnopqrstuvwxyz"]⟩]⟩).head? =
        some (((⟨1, [⟨"a", DType.object,
            [Cell.scalar "abcdefghijklmnopqrstuvwxyz"]⟩]⟩ : DataFrame).cols.map
          (fun c => c.name)).map truncCell) ∧
      (previewMatrix ⟨1, [⟨"a", DType.object,
          [Cell.scalar "abcdefghijklmnopqrstuvwxyz"]⟩]⟩).tail =
        (previewRows ⟨1, [⟨"a", DType.object,
            [Cell.scalar "abcdefghijklmnopqrstuvwxyz"]⟩]⟩).map
          (fun r => r.map (fun c => truncCell (cellStr c))) ∧
      (previewRows ⟨1, [⟨"a", DType.object,
          [Cell.scalar "abcdefghijklmnopqrstuvwxyz"]⟩]⟩).length =
        min 10 (⟨1, [⟨"a", DType.object,
          [Cell.scalar "abcdefghijklmnopqrstuvwxyz"]⟩]⟩ : DataFrame).nRows ∧
      (∀ s, 20 < s.length → truncCell s = s.take 20 ++ "...") ∧
      (∀ s, s.length ≤ 20 → truncCell s = s)) :=
  ⟨by decide,
   preview_section_content "t"
     ⟨1, [⟨"a", DType.object, [Cell.scalar "abcdefghijklmnopqrstuvwxyz"]⟩]⟩
     (analyze_data ⟨1, [⟨"a", DType.object,
        [Cell.scalar "abcdefghijklmnopqrstuvwxyz"]⟩]⟩) [] (by decide)⟩
